import Mathlib

/-!
A shallow embedding of the weaverbird session state machine of
`src/weaverbird/session/sessionState.ts`: the session states, their
`interact` operations, and the bounded code-generation polling loop
(`CodeGenBase.generateCode`), together with theorems about their behaviour.

Remote collaborators (the proxy client, the upload helper, the local file
system, the cancellation token) are modelled as explicit environments; the
asynchronous loop is modelled as a function of the sequence of statuses the
remote job reports and of the cancellation flag's value at each loop-boundary
check.
-/

namespace Weaverbird

/-- The `SessionStatePhase` union type of `weaverbird/types.ts`:
`'Init' | 'Approach' | 'Codegen'`. -/
inductive SessionStatePhase where
  | Init
  | Approach
  | Codegen
deriving Repr, DecidableEq

/-- One generated file as returned by `exportResultArchive` / produced by
mock code generation: `{filePath, fileContent}`. -/
structure GeneratedFile where
  filePath : String
  fileContent : String
deriving Repr, DecidableEq

/-- Errors thrown by the session code.  `toolkit` is a plain `ToolkitError`
with a message; `chained` is `ToolkitError.chain(cause, message)`;
`userMessageNotFound` is `UserMessageNotFoundError`, modelled from the spec:
`weaverbird/errors.ts` is not among the sources, and the spec's error
taxonomy treats the missing-message condition as a recognized application
error (a `ToolkitError` subclass) surfaced as its own condition; `external`
is any thrown value that is not a `ToolkitError` (e.g. a network failure
raised inside a remote call). -/
inductive Exn where
  | toolkit (message : String)
  | chained (message : String) (cause : Exn)
  | userMessageNotFound
  | external (description : String)
deriving Repr, DecidableEq

/-- The `e instanceof ToolkitError` test of `sessionState.ts` lines 115 and
294: every variant but `external` is a `ToolkitError`. -/
def Exn.isToolkitError : Exn → Bool
  | .toolkit _ => true
  | .chained _ _ => true
  | .userMessageNotFound => true
  | .external _ => false

/-- `ToolkitError.chain(e, message)`: wrap an arbitrary error in a new
`ToolkitError` with the given message. -/
def Exn.chain (e : Exn) (message : String) : Exn := .chained message e

/-- The `catch` bodies of `RefinementState.interact` (line 115) and
`CodeGenState.interact` (line 294):
`e instanceof ToolkitError ? e : ToolkitError.chain(e, 'Server side error')`. -/
def wrapServerSide (e : Exn) : Exn :=
  if e.isToolkitError then e else e.chain "Server side error"

/-- The message of the outermost error. -/
def Exn.message : Exn → String
  | .toolkit m => m
  | .chained m _ => m
  | .userMessageNotFound => "Message was not found"
  | .external d => d

/-- `throw new ToolkitError('Code generation failed')` (line 227). -/
def codeGenFailedError : Exn := .toolkit "Code generation failed"

/-- The unknown-status error of lines 230-231:
``new ToolkitError(`Unknown status: ${status}\n`)``. -/
def unknownStatusError (raw : String) : Exn :=
  .toolkit ("Unknown status: " ++ raw ++ "\n")

/-- The timeout error of lines 237-238 (message as in the source, including
its typo). -/
def timeoutError : Exn :=
  .toolkit "Code generation did not finish withing the expected time"

/-- `path.join(uploadId, filePath)` for plain relative segments: joined with
a single separator. -/
def pathJoin (a b : String) : String := a ++ "/" ++ b

/-- One `fs.registerProvider(uri, new VirtualMemoryFile(contents))`
registration: the registered path and the file content. -/
structure VfsEntry where
  path : String
  content : String
deriving Repr, DecidableEq

/-- `createFilePaths` (lines 163-181): for each `{filePath, fileContent}`
register a VirtualFileSystem entry at `path.join(uploadId, filePath)` holding
the content, and collect `filePath` into the returned path list.  The first
component is the list of registrations performed, the second the returned
`filePaths` list. -/
def createFilePaths (newFileContents : List GeneratedFile) (uploadId : String) :
    List VfsEntry × List String :=
  (newFileContents.map fun f => ⟨pathJoin uploadId f.filePath, f.fileContent⟩,
   newFileContents.map fun f => f.filePath)

/-- The environment seen by one `generateCode` run: the status string the
`getCodeGeneration` call of poll `i` reports, the value of
`tokenSource.token.isCancellationRequested` at the `i`-th loop-boundary
check, and the file list `exportResultArchive` returns. -/
structure CodeGenEnv where
  statuses : Nat → String
  cancelled : Nat → Bool
  exportResult : List GeneratedFile

/-- `generateCode`'s successful return value `{newFiles, newFilePaths}`. -/
structure CodeGenResult where
  newFiles : List GeneratedFile
  newFilePaths : List String
deriving Repr, DecidableEq

/-- The observable trace of one `generateCode` run: how many
`getCodeGeneration` polls were issued, how many `setTimeout` delays were
awaited, whether `exportResultArchive` was called, the VirtualFileSystem
registrations performed, and the outcome. -/
structure CodeGenTrace where
  polls : Nat
  delays : Nat
  exported : Bool
  registered : List VfsEntry
  outcome : Except Exn CodeGenResult
deriving Repr

/-- `private pollCount = 180` (line 184). -/
def pollCount : Nat := 180

/-- `private requestDelay = 10000` (line 185), in milliseconds. -/
def requestDelay : Nat := 10000

/-- The polling loop of `CodeGenBase.generateCode` (lines 201-243), from loop
index `i` with `delays` sleeps and `polls` queries already performed and
`remaining = pollCount - i` iterations left.  Each loop-condition evaluation
reads the cancellation flag (`env.cancelled i`); the post-loop
re-check of lines 235-239 reads the flag at the exit index: cancellation
yields the empty `{newFiles: [], newFilePaths: []}` result, exhaustion of the
iteration budget throws the timeout error. -/
def generateCodeAux (env : CodeGenEnv) (uploadId : String) :
    Nat → Nat → Nat → Nat → CodeGenTrace
  | i, polls, delays, 0 =>
    if env.cancelled i then
      ⟨polls, delays, false, [], .ok ⟨[], []⟩⟩
    else
      ⟨polls, delays, false, [], .error timeoutError⟩
  | i, polls, delays, remaining + 1 =>
    if env.cancelled i then
      ⟨polls, delays, false, [], .ok ⟨[], []⟩⟩
    else
      let status := env.statuses i
      if status = "Complete" then
        let staged := createFilePaths env.exportResult uploadId
        ⟨polls + 1, delays, true, staged.1, .ok ⟨env.exportResult, staged.2⟩⟩
      else if status = "predict-ready" ∨ status = "InProgress" then
        generateCodeAux env uploadId (i + 1) (polls + 1) (delays + 1) remaining
      else if status = "predict-failed" ∨ status = "debate-failed" ∨
          status = "Failed" then
        ⟨polls + 1, delays, false, [], .error codeGenFailedError⟩
      else
        ⟨polls + 1, delays, false, [], .error (unknownStatusError status)⟩

/-- `CodeGenBase.generateCode` (lines 197-244): run the polling loop from the
start with the fixed iteration budget. -/
def generateCode (env : CodeGenEnv) (uploadId : String) : CodeGenTrace :=
  generateCodeAux env uploadId 0 0 0 pollCount

/-- Modelled from the spec: the third-party `sanitize-html` call
`sanitizeHtml(text, {})` strips unsafe markup so that no tag — in particular
no `<script>` tag — survives into the displayed approach text, while text
free of markup passes through unchanged.  Modelled as removal of the markup
delimiters. -/
def sanitizeHtml (s : String) : String :=
  String.mk (s.data.filter fun c => !(c == '<' || c == '>'))

/-- The fallback approach text of lines 97-98 and 150. -/
def fallbackApproach : String :=
  "There has been a problem generating an approach. Please open a conversation in a new tab"

/-- `sanitizeHtml(approach ?? fallback, {})` as it appears in both
`RefinementState.interact` (lines 96-100) and
`RefinementIterationState.interact` (lines 149-152): `??` substitutes the
fallback only for `undefined`/`null`, never for the empty string. -/
def approachShown (plan : Option String) : String :=
  sanitizeHtml (plan.getD fallbackApproach)

/-- `s.indexOf(pattern) !== -1`: `pattern` occurs as a contiguous substring
of `s`. -/
def containsSubstring (pattern s : String) : Bool :=
  decide (pattern.data <:+: s.data)

/-- JavaScript truthiness of the optional `action.msg`: present and
non-empty. -/
def msgTruthy : Option String → Bool
  | none => false
  | some m => !(m == "")

/-- JavaScript `s.replace(pattern, replacement)` with a string pattern:
replaces only the first occurrence (used on `'mock-data/'` at line 324). -/
def replaceFirst (s pattern replacement : String) : String :=
  match s.splitOn pattern with
  | [] => s
  | [_] => s
  | x :: rest => x ++ replacement ++ String.intercalate pattern rest

/-- The `SessionStateConfig` bundle threaded through every state (the proxy
client itself lives in the interaction environment below). -/
structure SessionStateConfig where
  conversationId : String
  uploadId : String
  workspaceRoot : String
deriving Repr, DecidableEq

/-- The session state variants of `sessionState.ts`, with the fields each
class carries.  `mockCodeGen` holds the freshly generated `uploadId` of its
constructor; `prepareIteration` holds its own mutable `uploadId` field
(initialized from the config, reassigned at line 372). -/
inductive SessionStateV where
  | conversationNotStarted (approach : String) (tabID : String)
  | prepareRefinement (config : SessionStateConfig) (approach : String) (tabID : String)
  | refinement (config : SessionStateConfig) (approach : String) (tabID : String)
  | refinementIteration (config : SessionStateConfig) (approach : String) (tabID : String)
  | codeGen (config : SessionStateConfig) (approach : String)
      (filePaths : List String) (tabID : String)
  | mockCodeGen (config : SessionStateConfig) (approach : String)
      (filePaths : List String) (tabID : String) (uploadId : String)
  | prepareIteration (config : SessionStateConfig) (approach : String)
      (filePaths : List String) (tabID : String) (uploadId : String)
  | codeGenIteration (config : SessionStateConfig) (approach : String)
      (filePaths : List String) (tabID : String)
deriving Repr, DecidableEq

/-- The variant tag of a state (which class the object belongs to). -/
inductive StateTag where
  | conversationNotStarted
  | prepareRefinement
  | refinement
  | refinementIteration
  | codeGen
  | mockCodeGen
  | prepareIteration
  | codeGenIteration
deriving Repr, DecidableEq

def SessionStateV.tag : SessionStateV → StateTag
  | .conversationNotStarted .. => .conversationNotStarted
  | .prepareRefinement .. => .prepareRefinement
  | .refinement .. => .refinement
  | .refinementIteration .. => .refinementIteration
  | .codeGen .. => .codeGen
  | .mockCodeGen .. => .mockCodeGen
  | .prepareIteration .. => .prepareIteration
  | .codeGenIteration .. => .codeGenIteration

/-- The `phase` field each class declares: `'Init'` for
`ConversationNotStartedState`, `'Approach'` for the refinement states,
`'Codegen'` for `CodeGenBase`'s subclasses and `PrepareIterationState` —
and none at all for `MockCodeGenState`, which declares no `phase` field
(lines 300-311), so its phase reads as `undefined`. -/
def SessionStateV.phase : SessionStateV → Option SessionStatePhase
  | .conversationNotStarted .. => some .Init
  | .prepareRefinement .. => some .Approach
  | .refinement .. => some .Approach
  | .refinementIteration .. => some .Approach
  | .codeGen .. => some .Codegen
  | .mockCodeGen .. => none
  | .prepareIteration .. => some .Codegen
  | .codeGenIteration .. => some .Codegen

/-- The phase a variant's constructor fixes, as a function of the tag. -/
def phaseOfTag : StateTag → Option SessionStatePhase
  | .conversationNotStarted => some .Init
  | .prepareRefinement => some .Approach
  | .refinement => some .Approach
  | .refinementIteration => some .Approach
  | .codeGen => some .Codegen
  | .mockCodeGen => none
  | .prepareIteration => some .Codegen
  | .codeGenIteration => some .Codegen

/-- The `approach` field common to every variant. -/
def SessionStateV.approachOf : SessionStateV → String
  | .conversationNotStarted a _ => a
  | .prepareRefinement _ a _ => a
  | .refinement _ a _ => a
  | .refinementIteration _ a _ => a
  | .codeGen _ a _ _ => a
  | .mockCodeGen _ a _ _ _ => a
  | .prepareIteration _ a _ _ _ => a
  | .codeGenIteration _ a _ _ => a

/-- `new ConversationNotStartedState(approach, tabID)`: the constructor body
overwrites `approach` with `''` (line 38). -/
def mkConversationNotStartedState (_approach tabID : String) : SessionStateV :=
  .conversationNotStarted "" tabID

/-- `new PrepareRefinementState(config, approach, tabID)`. -/
def mkPrepareRefinementState (config : SessionStateConfig)
    (approach tabID : String) : SessionStateV :=
  .prepareRefinement config approach tabID

/-- `new RefinementState(config, approach, tabID)`. -/
def mkRefinementState (config : SessionStateConfig)
    (approach tabID : String) : SessionStateV :=
  .refinement config approach tabID

/-- `new RefinementIterationState(config, approach, tabID)`. -/
def mkRefinementIterationState (config : SessionStateConfig)
    (approach tabID : String) : SessionStateV :=
  .refinementIteration config approach tabID

/-- `new CodeGenState(config, approach, tabID)`: `filePaths` starts empty
(line 252). -/
def mkCodeGenState (config : SessionStateConfig)
    (approach tabID : String) : SessionStateV :=
  .codeGen config approach [] tabID

/-- `new MockCodeGenState(config, approach, tabID)`: `filePaths` starts
empty and `uploadId` is a fresh `randomUUID()` (lines 306-311), passed in
here by the caller's environment. -/
def mkMockCodeGenState (config : SessionStateConfig)
    (approach tabID freshUploadId : String) : SessionStateV :=
  .mockCodeGen config approach [] tabID freshUploadId

/-- `new PrepareIterationState(config, approach, filePaths, tabID)`:
`uploadId` starts as `config.uploadId` (line 361). -/
def mkPrepareIterationState (config : SessionStateConfig) (approach : String)
    (filePaths : List String) (tabID : String) : SessionStateV :=
  .prepareIteration config approach filePaths tabID config.uploadId

/-- `new CodeGenIterationState(config, approach, filePaths, tabID)`. -/
def mkCodeGenIterationState (config : SessionStateConfig) (approach : String)
    (filePaths : List String) (tabID : String) : SessionStateV :=
  .codeGenIteration config approach filePaths tabID

/-- One call made to a remote collaborator during an `interact` run. -/
inductive RemoteCall where
  | prepareRepoData (workspaceRoot conversationId : String)
  | createUploadUrl (conversationId checksum : String)
  | uploadCode (uploadUrl : String)
  | generatePlan (conversationId uploadId msg : String)
  | startCodeGeneration (conversationId uploadId : String) (msg : Option String)
  | getCodeGeneration (conversationId codeGenerationId : String) (pollIndex : Nat)
  | exportResultArchive (conversationId : String)
deriving Repr, DecidableEq

/-- The collaborators an `interact` call consults: the proxy client's
operations, the repo-snapshot and upload helpers, the local mock-data
directory, and the fresh UUID `MockCodeGenState`'s constructor draws.
`prepareRepoData` yields `(zipFileBuffer, zipFileChecksum)`;
`createUploadUrl` yields `(uploadUrl, uploadId, kmsKeyArn)`;
`startCodeGeneration` yields the `codeGenerationId`; `statMockDataDir` is
`fs.stat` on the `mock-data` directory, which throws when it is absent;
`collectFiles` is the file list found under it. -/
structure InteractEnv where
  prepareRepoData : String → String → Except Exn (String × String)
  createUploadUrl : String → String → Except Exn (String × String × String)
  uploadCode : String → String → String → Except Exn Unit
  generatePlan : String → String → String → Except Exn (Option String)
  startCodeGeneration : String → String → Option String → Except Exn String
  codeGen : CodeGenEnv
  statMockDataDir : Except Exn Unit
  collectFiles : List GeneratedFile
  freshUploadId : String

/-- `SessionStateAction`: the inbound user message (absent, empty or
non-empty); the messenger and virtual file system references are tracked
through the output trace instead. -/
structure SessionStateAction where
  msg : Option String
deriving Repr, DecidableEq

/-- The observable outcome of one `interact` call: the remote calls it made
in order, the VirtualFileSystem registrations it performed, the value of the
acting object's own fields after the call (`this`, with any field mutations
applied), and either the thrown error or the returned
`{nextState, interaction}` with the interaction's optional content. -/
structure InteractOut where
  calls : List RemoteCall
  registered : List VfsEntry
  updatedSelf : SessionStateV
  result : Except Exn (SessionStateV × Option String)

/-- `ConversationNotStartedState.interact` (lines 41-43): always throws. -/
def conversationNotStartedInteract (approach tabID : String)
    (_env : InteractEnv) (_action : SessionStateAction) : InteractOut :=
  ⟨[], [], .conversationNotStarted approach tabID,
   .error (.toolkit "Illegal transition between states, restart the conversation")⟩

/-- `MockCodeGenState.interact` (lines 313-346): best-effort read of the
local `mock-data` directory; a failure of the `fs.stat` probe is caught,
logged and swallowed. The next state is always a fresh `RefinementState`
over the same config (the spread `{...this.config, conversationId}` rebuilds
the config with its own conversation id). -/
def mockCodeGenInteract (config : SessionStateConfig) (approach : String)
    (filePaths : List String) (tabID uploadId : String)
    (env : InteractEnv) (_action : SessionStateAction) : InteractOut :=
  let next := mkRefinementState config approach tabID
  match env.statMockDataDir with
  | .error _ =>
    ⟨[], [], .mockCodeGen config approach filePaths tabID uploadId, .ok (next, none)⟩
  | .ok _ =>
    let newFileContents := env.collectFiles.map fun f =>
      { filePath := replaceFirst f.filePath "mock-data/" "", fileContent := f.fileContent }
    let staged := createFilePaths newFileContents uploadId
    ⟨[], staged.1, .mockCodeGen config approach staged.2 tabID uploadId, .ok (next, none)⟩

/-- `RefinementIterationState.interact` (lines 133-160): a truthy message
containing the `'MOCK CODE'` sentinel delegates to a fresh
`MockCodeGenState`'s `interact`; a falsy message throws
`UserMessageNotFoundError`; otherwise the plan is regenerated and the state
self-loops.  No try/catch surrounds the body. -/
def refinementIterationInteract (config : SessionStateConfig)
    (approach tabID : String)
    (env : InteractEnv) (action : SessionStateAction) : InteractOut :=
  let self := SessionStateV.refinementIteration config approach tabID
  if msgTruthy action.msg && containsSubstring "MOCK CODE" (action.msg.getD "") then
    let inner := mockCodeGenInteract config approach [] tabID env.freshUploadId env action
    { inner with updatedSelf := self }
  else if !msgTruthy action.msg then
    ⟨[], [], self, .error .userMessageNotFound⟩
  else
    let m := action.msg.getD ""
    match env.generatePlan config.conversationId config.uploadId m with
    | .error e =>
      ⟨[.generatePlan config.conversationId config.uploadId m], [], self, .error e⟩
    | .ok plan =>
      let newApproach := approachShown plan
      ⟨[.generatePlan config.conversationId config.uploadId m], [],
       .refinementIteration config newApproach tabID,
       .ok (mkRefinementIterationState config newApproach tabID,
            some (newApproach ++ "\n"))⟩

/-- `RefinementState.interact` (lines 81-118): requires a truthy message,
generates a plan, sanitizes it, transitions to `RefinementIterationState`.
The whole body runs in a try/catch that rethrows `ToolkitError`s unchanged
and chains anything else with `'Server side error'`;
`UserMessageNotFoundError` is a `ToolkitError`, so it passes unwrapped. -/
def refinementInteract (config : SessionStateConfig) (approach tabID : String)
    (env : InteractEnv) (action : SessionStateAction) : InteractOut :=
  let self := SessionStateV.refinement config approach tabID
  if !msgTruthy action.msg then
    ⟨[], [], self, .error (wrapServerSide .userMessageNotFound)⟩
  else
    let m := action.msg.getD ""
    match env.generatePlan config.conversationId config.uploadId m with
    | .error e =>
      ⟨[.generatePlan config.conversationId config.uploadId m], [], self,
       .error (wrapServerSide e)⟩
    | .ok plan =>
      let newApproach := approachShown plan
      ⟨[.generatePlan config.conversationId config.uploadId m], [],
       .refinement config newApproach tabID,
       .ok (mkRefinementIterationState config newApproach tabID,
            some (newApproach ++ "\n"))⟩

/-- `PrepareRefinementState.interact` (lines 52-66): snapshot, create an
upload URL, upload, then delegate to a fresh `RefinementState.interact` on
the config updated with the new upload id.  No try/catch: failures
propagate as raised. -/
def prepareRefinementInteract (config : SessionStateConfig)
    (approach tabID : String)
    (env : InteractEnv) (action : SessionStateAction) : InteractOut :=
  let self := SessionStateV.prepareRefinement config approach tabID
  let c0 := RemoteCall.prepareRepoData config.workspaceRoot config.conversationId
  match env.prepareRepoData config.workspaceRoot config.conversationId with
  | .error e => ⟨[c0], [], self, .error e⟩
  | .ok (zipFileBuffer, zipFileChecksum) =>
    let c1 := RemoteCall.createUploadUrl config.conversationId zipFileChecksum
    match env.createUploadUrl config.conversationId zipFileChecksum with
    | .error e => ⟨[c0, c1], [], self, .error e⟩
    | .ok (uploadUrl, uploadId, kmsKeyArn) =>
      let c2 := RemoteCall.uploadCode uploadUrl
      match env.uploadCode uploadUrl zipFileBuffer kmsKeyArn with
      | .error e => ⟨[c0, c1, c2], [], self, .error e⟩
      | .ok _ =>
        let inner :=
          refinementInteract { config with uploadId := uploadId } approach tabID env action
        { inner with calls := [c0, c1, c2] ++ inner.calls, updatedSelf := self }

/-- `CodeGenState.interact` (lines 255-297): start the remote job (no user
message is forwarded), run the polling loop, store the produced file paths
and transition to `PrepareIterationState`.  The body runs in a try/catch
that wraps non-`ToolkitError` failures with `'Server side error'`. -/
def codeGenInteract (config : SessionStateConfig) (approach : String)
    (filePaths : List String) (tabID : String)
    (env : InteractEnv) (_action : SessionStateAction) : InteractOut :=
  let self := SessionStateV.codeGen config approach filePaths tabID
  let c0 := RemoteCall.startCodeGeneration config.conversationId config.uploadId none
  match env.startCodeGeneration config.conversationId config.uploadId none with
  | .error e => ⟨[c0], [], self, .error (wrapServerSide e)⟩
  | .ok codeGenerationId =>
    let gen := generateCode env.codeGen config.uploadId
    let pollCalls := (List.range gen.polls).map fun i =>
      RemoteCall.getCodeGeneration config.conversationId codeGenerationId i
    let exportCalls :=
      if gen.exported then [RemoteCall.exportResultArchive config.conversationId] else []
    let calls := c0 :: (pollCalls ++ exportCalls)
    match gen.outcome with
    | .error e => ⟨calls, gen.registered, self, .error (wrapServerSide e)⟩
    | .ok result =>
      ⟨calls, gen.registered,
       .codeGen config approach result.newFilePaths tabID,
       .ok (mkPrepareIterationState config approach result.newFilePaths tabID, none)⟩

/-- `CodeGenIterationState.interact` (lines 384-416): start the remote job
forwarding the user message, run the polling loop, store the produced file
paths and transition to `PrepareIterationState`.  No try/catch: failures
propagate as raised. -/
def codeGenIterationInteract (config : SessionStateConfig) (approach : String)
    (filePaths : List String) (tabID : String)
    (env : InteractEnv) (action : SessionStateAction) : InteractOut :=
  let self := SessionStateV.codeGenIteration config approach filePaths tabID
  let c0 := RemoteCall.startCodeGeneration config.conversationId config.uploadId action.msg
  match env.startCodeGeneration config.conversationId config.uploadId action.msg with
  | .error e => ⟨[c0], [], self, .error e⟩
  | .ok codeGenerationId =>
    let gen := generateCode env.codeGen config.uploadId
    let pollCalls := (List.range gen.polls).map fun i =>
      RemoteCall.getCodeGeneration config.conversationId codeGenerationId i
    let exportCalls :=
      if gen.exported then [RemoteCall.exportResultArchive config.conversationId] else []
    let calls := c0 :: (pollCalls ++ exportCalls)
    match gen.outcome with
    | .error e => ⟨calls, gen.registered, self, .error e⟩
    | .ok result =>
      ⟨calls, gen.registered,
       .codeGenIteration config approach result.newFilePaths tabID,
       .ok (mkPrepareIterationState config approach result.newFilePaths tabID, none)⟩

/-- `PrepareIterationState.interact` (lines 364-376): snapshot, create an
upload URL, record the new upload id on `this`, upload, then delegate to a
fresh `CodeGenIterationState` built over the updated config with an empty
approach string (`''` at line 374).  No try/catch. -/
def prepareIterationInteract (config : SessionStateConfig) (approach : String)
    (filePaths : List String) (tabID uploadId : String)
    (env : InteractEnv) (action : SessionStateAction) : InteractOut :=
  let self := SessionStateV.prepareIteration config approach filePaths tabID uploadId
  let c0 := RemoteCall.prepareRepoData config.workspaceRoot config.conversationId
  match env.prepareRepoData config.workspaceRoot config.conversationId with
  | .error e => ⟨[c0], [], self, .error e⟩
  | .ok (zipFileBuffer, zipFileChecksum) =>
    let c1 := RemoteCall.createUploadUrl config.conversationId zipFileChecksum
    match env.createUploadUrl config.conversationId zipFileChecksum with
    | .error e => ⟨[c0, c1], [], self, .error e⟩
    | .ok (uploadUrl, newUploadId, kmsKeyArn) =>
      let selfUpdated :=
        SessionStateV.prepareIteration config approach filePaths tabID newUploadId
      let c2 := RemoteCall.uploadCode uploadUrl
      match env.uploadCode uploadUrl zipFileBuffer kmsKeyArn with
      | .error e => ⟨[c0, c1, c2], [], selfUpdated, .error e⟩
      | .ok _ =>
        let inner :=
          codeGenIterationInteract { config with uploadId := newUploadId } "" filePaths tabID
            env action
        { inner with calls := [c0, c1, c2] ++ inner.calls, updatedSelf := selfUpdated }

/-- The polymorphic `interact` dispatch over the state variants. -/
def interactOf : SessionStateV → InteractEnv → SessionStateAction → InteractOut
  | .conversationNotStarted a t, env, action => conversationNotStartedInteract a t env action
  | .prepareRefinement c a t, env, action => prepareRefinementInteract c a t env action
  | .refinement c a t, env, action => refinementInteract c a t env action
  | .refinementIteration c a t, env, action => refinementIterationInteract c a t env action
  | .codeGen c a fp t, env, action => codeGenInteract c a fp t env action
  | .mockCodeGen c a fp t u, env, action => mockCodeGenInteract c a fp t u env action
  | .prepareIteration c a fp t u, env, action => prepareIterationInteract c a fp t u env action
  | .codeGenIteration c a fp t, env, action => codeGenIterationInteract c a fp t env action

/-- A concrete interaction environment in which every collaborator succeeds
blandly: used to evaluate the interact operations at concrete inputs. -/
def trivialEnv : InteractEnv where
  prepareRepoData := fun _ _ => .ok ("zip", "checksum")
  createUploadUrl := fun _ _ => .ok ("https://upload", "upload-2", "kms")
  uploadCode := fun _ _ _ => .ok ()
  generatePlan := fun _ _ _ => .ok (some "plan")
  startCodeGeneration := fun _ _ _ => .ok "cg-1"
  codeGen := ⟨fun _ => "Complete", fun _ => false, []⟩
  statMockDataDir := .ok ()
  collectFiles := []
  freshUploadId := "mock-upload"

/-- `trivialEnv` with the remote plan call returning the empty string. -/
def emptyPlanEnv : InteractEnv :=
  { trivialEnv with generatePlan := fun _ _ _ => .ok (some "") }

/-- `trivialEnv` with the remote plan call returning `undefined`. -/
def noPlanEnv : InteractEnv :=
  { trivialEnv with generatePlan := fun _ _ _ => .ok none }

/-- `trivialEnv` with the remote plan call throwing a non-`ToolkitError`. -/
def planFailEnv : InteractEnv :=
  { trivialEnv with generatePlan := fun _ _ _ => .error (.external "boom") }

/-- `trivialEnv` with the `mock-data` directory absent: the `fs.stat` probe
throws. -/
def mockAbsentEnv : InteractEnv :=
  { trivialEnv with statMockDataDir := .error (.external "ENOENT") }

/-! ## Helper lemmas about the polling loop -/

theorem generateCodeAux_cancelled (env : CodeGenEnv) (u : String)
    (i polls delays remaining : Nat) (hc : env.cancelled i = true) :
    generateCodeAux env u i polls delays remaining =
      ⟨polls, delays, false, [], .ok ⟨[], []⟩⟩ := by
  cases remaining <;> simp [generateCodeAux, hc]

theorem generateCodeAux_step (env : CodeGenEnv) (u : String)
    (i polls delays remaining : Nat)
    (hc : env.cancelled i = false) (hs : env.statuses i = "InProgress") :
    generateCodeAux env u i polls delays (remaining + 1) =
      generateCodeAux env u (i + 1) (polls + 1) (delays + 1) remaining := by
  simp [generateCodeAux, hc, hs]

theorem generateCodeAux_complete (env : CodeGenEnv) (u : String)
    (i polls delays remaining : Nat)
    (hc : env.cancelled i = false) (hs : env.statuses i = "Complete") :
    generateCodeAux env u i polls delays (remaining + 1) =
      ⟨polls + 1, delays, true, (createFilePaths env.exportResult u).1,
       .ok ⟨env.exportResult, (createFilePaths env.exportResult u).2⟩⟩ := by
  simp [generateCodeAux, hc, hs]

theorem generateCodeAux_all_inprogress (env : CodeGenEnv) (u : String) :
    ∀ remaining i polls delays,
      (∀ j, j ≤ remaining → env.cancelled (i + j) = false) →
      (∀ j, j < remaining → env.statuses (i + j) = "InProgress") →
      generateCodeAux env u i polls delays remaining =
        ⟨polls + remaining, delays + remaining, false, [], .error timeoutError⟩ := by
  intro remaining
  induction remaining with
  | zero =>
    intro i polls delays hc _
    have h0 : env.cancelled i = false := by simpa using hc 0 (Nat.le_refl 0)
    simp [generateCodeAux, h0]
  | succ n ih =>
    intro i polls delays hc hs
    have h0 : env.cancelled i = false := by simpa using hc 0 (Nat.zero_le _)
    have s0 : env.statuses i = "InProgress" := by simpa using hs 0 (Nat.succ_pos n)
    have hc' : ∀ j, j ≤ n → env.cancelled (i + 1 + j) = false := by
      intro j hj
      have h := hc (j + 1) (Nat.succ_le_succ hj)
      simpa [Nat.add_assoc, Nat.add_comm 1 j] using h
    have hs' : ∀ j, j < n → env.statuses (i + 1 + j) = "InProgress" := by
      intro j hj
      have h := hs (j + 1) (Nat.succ_lt_succ hj)
      simpa [Nat.add_assoc, Nat.add_comm 1 j] using h
    rw [generateCodeAux_step env u i polls delays n h0 s0,
      ih (i + 1) (polls + 1) (delays + 1) hc' hs']
    congr 1 <;> omega

/-! ## Claims about `generateCode` -/

/-- C1: a run of `generateCode` whose remote job reports the status sequence
`[InProgress, InProgress, Complete]` performs exactly two delayed re-polls
(three polls, two sleeps) before returning, exports the result archive, and
registers exactly one VirtualFileSystem entry per returned file at the path
`<uploadId>/<filePath>`, returning the collected path list. -/
theorem generateCode_inprogress_twice_then_complete (env : CodeGenEnv) (u : String)
    (h0 : env.statuses 0 = "InProgress") (h1 : env.statuses 1 = "InProgress")
    (h2 : env.statuses 2 = "Complete")
    (c0 : env.cancelled 0 = false) (c1 : env.cancelled 1 = false)
    (c2 : env.cancelled 2 = false) :
    generateCode env u =
      ⟨3, 2, true,
       env.exportResult.map fun f => ⟨u ++ "/" ++ f.filePath, f.fileContent⟩,
       .ok ⟨env.exportResult, env.exportResult.map fun f => f.filePath⟩⟩ := by
  have h : generateCode env u = generateCodeAux env u 0 0 0 180 := rfl
  rw [h, show (180 : Nat) = 179 + 1 from rfl,
    generateCodeAux_step env u 0 0 0 179 c0 h0,
    show (179 : Nat) = 178 + 1 from rfl,
    generateCodeAux_step env u 1 1 1 178 c1 h1,
    show (178 : Nat) = 177 + 1 from rfl,
    generateCodeAux_complete env u 2 2 2 177 c2 h2]
  simp [createFilePaths, pathJoin]

/-- C1 witness. -/
theorem generateCode_inprogress_twice_then_complete_witness :
    generateCode
      ⟨fun i => if i < 2 then "InProgress" else "Complete", fun _ => false,
       [⟨"a.txt", "hello"⟩]⟩ "up1" =
      ⟨3, 2, true, [⟨"up1/a.txt", "hello"⟩], .ok ⟨[⟨"a.txt", "hello"⟩], ["a.txt"]⟩⟩ := by
  rw [generateCode_inprogress_twice_then_complete _ "up1" rfl rfl rfl rfl rfl rfl]
  rfl

/-- C2: at any poll of the `generateCode` loop, a status of `Failed`,
`predict-failed` or `debate-failed` fails the call immediately with the
code-generation-failed condition, registering no files and performing no
further retry; any status outside the recognized set fails immediately with
the unknown-status condition, whose message contains the raw status value. -/
theorem generateCode_failed_and_unknown_status (env : CodeGenEnv) (u : String)
    (i polls delays remaining : Nat) (hc : env.cancelled i = false) :
    ((env.statuses i = "Failed" ∨ env.statuses i = "predict-failed" ∨
        env.statuses i = "debate-failed") →
      generateCodeAux env u i polls delays (remaining + 1) =
        ⟨polls + 1, delays, false, [], .error codeGenFailedError⟩) ∧
    (env.statuses i ∉ (["Complete", "predict-ready", "InProgress",
        "predict-failed", "debate-failed", "Failed"] : List String) →
      generateCodeAux env u i polls delays (remaining + 1) =
        ⟨polls + 1, delays, false, [], .error (unknownStatusError (env.statuses i))⟩ ∧
      (env.statuses i).data <:+: (unknownStatusError (env.statuses i)).message.data) := by
  constructor
  · rintro (hs | hs | hs) <;> simp [generateCodeAux, hc, hs]
  · intro hs
    simp only [List.mem_cons, List.mem_singleton, not_or] at hs
    obtain ⟨n1, n2, n3, n4, n5, n6⟩ := hs
    constructor
    · simp [generateCodeAux, hc, n1, n2, n3, n4, n5, n6]
    · refine ⟨"Unknown status: ".data, "\n".data, ?_⟩
      simp [unknownStatusError, Exn.message]

/-- C2 witness. -/
theorem generateCode_failed_and_unknown_status_witness :
    ((("Failed" : String) = "Failed" ∨ ("Failed" : String) = "predict-failed" ∨
        ("Failed" : String) = "debate-failed") →
      generateCodeAux ⟨fun _ => "Failed", fun _ => false, []⟩ "u" 0 0 0 (179 + 1) =
        ⟨1, 0, false, [], .error codeGenFailedError⟩) ∧
    (("Failed" : String) ∉ (["Complete", "predict-ready", "InProgress",
        "predict-failed", "debate-failed", "Failed"] : List String) →
      generateCodeAux ⟨fun _ => "Failed", fun _ => false, []⟩ "u" 0 0 0 (179 + 1) =
        ⟨1, 0, false, [], .error (unknownStatusError "Failed")⟩ ∧
      ("Failed" : String).data <:+: (unknownStatusError "Failed").message.data) :=
  generateCode_failed_and_unknown_status ⟨fun _ => "Failed", fun _ => false, []⟩
    "u" 0 0 0 179 rfl

/-- C3: whenever the cancellation flag reads true at a loop-boundary check of
`generateCode`, the loop exits and the call returns the empty
`{newFiles: [], newFilePaths: []}` result without raising any error and
without registering any file — cancellation is a soft, non-erroring exit. -/
theorem generateCode_cancellation_soft_exit (env : CodeGenEnv) (u : String)
    (i polls delays remaining : Nat) (hc : env.cancelled i = true) :
    generateCodeAux env u i polls delays remaining =
      ⟨polls, delays, false, [], .ok ⟨[], []⟩⟩ ∧
    (env.cancelled 0 = true →
      generateCode env u = ⟨0, 0, false, [], .ok ⟨[], []⟩⟩) := by
  refine ⟨generateCodeAux_cancelled env u i polls delays remaining hc, fun h0 => ?_⟩
  exact generateCodeAux_cancelled env u 0 0 0 pollCount h0

/-- C3 witness. -/
theorem generateCode_cancellation_soft_exit_witness :
    generateCodeAux ⟨fun _ => "InProgress", fun _ => true, []⟩ "u" 0 0 0 180 =
      ⟨0, 0, false, [], .ok ⟨[], []⟩⟩ ∧
    ((⟨fun _ => "InProgress", fun _ => true, []⟩ : CodeGenEnv).cancelled 0 = true →
      generateCode ⟨fun _ => "InProgress", fun _ => true, []⟩ "u" =
        ⟨0, 0, false, [], .ok ⟨[], []⟩⟩) :=
  generateCode_cancellation_soft_exit ⟨fun _ => "InProgress", fun _ => true, []⟩
    "u" 0 0 0 180 rfl

/-- C4: if every status through the whole iteration budget remains
`InProgress` and cancellation is never signaled, the `generateCode` loop runs
exactly 180 iterations and then fails with the timeout condition, which is a
distinct condition from the code-generation-failed error. -/
theorem generateCode_timeout_at_cap (env : CodeGenEnv) (u : String)
    (hc : ∀ j, j ≤ 180 → env.cancelled j = false)
    (hs : ∀ j, j < 180 → env.statuses j = "InProgress") :
    generateCode env u = ⟨180, 180, false, [], .error timeoutError⟩ ∧
    timeoutError ≠ codeGenFailedError := by
  constructor
  · have h := generateCodeAux_all_inprogress env u 180 0 0 0
      (fun j hj => by simpa using hc j hj)
      (fun j hj => by simpa using hs j hj)
    simpa [generateCode, pollCount] using h
  · simp [timeoutError, codeGenFailedError]

/-- C4 witness. -/
theorem generateCode_timeout_at_cap_witness :
    generateCode ⟨fun _ => "InProgress", fun _ => false, []⟩ "u" =
      ⟨180, 180, false, [], .error timeoutError⟩ ∧
    timeoutError ≠ codeGenFailedError :=
  generateCode_timeout_at_cap ⟨fun _ => "InProgress", fun _ => false, []⟩ "u"
    (fun _ _ => rfl) (fun _ _ => rfl)

/-! ## Helper lemmas about sanitization -/

theorem sanitizeHtml_no_lt (s : String) : '<' ∉ (sanitizeHtml s).data := by
  simp [sanitizeHtml]

theorem sanitizeHtml_no_script (s : String) :
    ¬ ("<script>".data <:+: (sanitizeHtml s).data) := by
  intro h
  exact sanitizeHtml_no_lt s (h.subset (by decide))

/-! ## Claims about the interact operations -/

/-- C5: `RefinementState.interact` and `RefinementIterationState.interact`
— the states whose interact requires a user message — invoked with an
absent or empty message fail with the user-message-not-found condition and
perform no remote calls before failing. -/
theorem interact_missing_message (config : SessionStateConfig)
    (approach tabID : String) (env : InteractEnv) (action : SessionStateAction)
    (h : action.msg = none ∨ action.msg = some "") :
    (refinementInteract config approach tabID env action).result =
        .error .userMessageNotFound ∧
    (refinementInteract config approach tabID env action).calls = [] ∧
    (refinementIterationInteract config approach tabID env action).result =
        .error .userMessageNotFound ∧
    (refinementIterationInteract config approach tabID env action).calls = [] := by
  rcases h with h | h <;>
    simp [refinementInteract, refinementIterationInteract, msgTruthy,
      wrapServerSide, Exn.isToolkitError, h]

/-- C5 witness. -/
theorem interact_missing_message_witness :
    (refinementInteract ⟨"c", "u", "w"⟩ "a" "t" trivialEnv ⟨none⟩).result =
        .error .userMessageNotFound ∧
    (refinementInteract ⟨"c", "u", "w"⟩ "a" "t" trivialEnv ⟨none⟩).calls = [] ∧
    (refinementIterationInteract ⟨"c", "u", "w"⟩ "a" "t" trivialEnv ⟨none⟩).result =
        .error .userMessageNotFound ∧
    (refinementIterationInteract ⟨"c", "u", "w"⟩ "a" "t" trivialEnv ⟨none⟩).calls = [] :=
  interact_missing_message ⟨"c", "u", "w"⟩ "a" "t" trivialEnv ⟨none⟩ (Or.inl rfl)

/-- C6 (amended): in both refinement interacts, a plan text received as
`undefined` from the remote plan-generation call is replaced by the fixed
fallback message (an empty-string plan text is not replaced), and the
displayed approach text is HTML-sanitized so that it contains no `<script>`
tag even when the raw plan text contained one. -/
theorem interact_plan_fallback_and_sanitized (config : SessionStateConfig)
    (approach tabID m : String) (env : InteractEnv) (action : SessionStateAction)
    (hm : action.msg = some m) (hne : m ≠ "")
    (hmock : containsSubstring "MOCK CODE" m = false)
    (plan : Option String)
    (hp : env.generatePlan config.conversationId config.uploadId m = .ok plan) :
    (refinementInteract config approach tabID env action).result =
      .ok (mkRefinementIterationState config (approachShown plan) tabID,
           some (approachShown plan ++ "\n")) ∧
    (refinementIterationInteract config approach tabID env action).result =
      .ok (mkRefinementIterationState config (approachShown plan) tabID,
           some (approachShown plan ++ "\n")) ∧
    approachShown none = fallbackApproach ∧
    (∀ raw : Option String,
      ¬ ("<script>".data <:+: (approachShown raw).data)) := by
  refine ⟨?_, ?_, ?_, fun raw => sanitizeHtml_no_script (raw.getD fallbackApproach)⟩
  · simp [refinementInteract, msgTruthy, hm, hne, hp]
  · simp [refinementIterationInteract, msgTruthy, hm, hne, hmock, hp]
  · rfl

/-- C6 witness. -/
theorem interact_plan_fallback_and_sanitized_witness :
    (refinementInteract ⟨"c", "u", "w"⟩ "a" "t" noPlanEnv ⟨some "hi"⟩).result =
      .ok (mkRefinementIterationState ⟨"c", "u", "w"⟩ (approachShown none) "t",
           some (approachShown none ++ "\n")) ∧
    (refinementIterationInteract ⟨"c", "u", "w"⟩ "a" "t" noPlanEnv ⟨some "hi"⟩).result =
      .ok (mkRefinementIterationState ⟨"c", "u", "w"⟩ (approachShown none) "t",
           some (approachShown none ++ "\n")) ∧
    approachShown none = fallbackApproach ∧
    (∀ raw : Option String,
      ¬ ("<script>".data <:+: (approachShown raw).data)) :=
  interact_plan_fallback_and_sanitized ⟨"c", "u", "w"⟩ "a" "t" "hi" noPlanEnv
    ⟨some "hi"⟩ rfl (by decide) (by decide) none rfl

/-- C6 counterexample: the claim also asserts that an *empty* plan text is
replaced by the fallback message, but `??` substitutes only for
`undefined`/`null`: with the remote call returning the empty string, the
stored and displayed approach stays empty and differs from the fallback. -/
theorem interact_empty_plan_kept_empty :
    (refinementInteract ⟨"c", "u", "w"⟩ "a" "t" emptyPlanEnv ⟨some "hi"⟩).result =
      .ok (mkRefinementIterationState ⟨"c", "u", "w"⟩ "" "t", some "\n") ∧
    ("" : String) ≠ fallbackApproach := by
  exact ⟨rfl, by decide⟩

/-- C7: a truthy inbound message containing the `'MOCK CODE'` sentinel makes
`RefinementIterationState.interact` delegate to `MockCodeGenState.interact`
regardless of the rest of the message, and `MockCodeGenState.interact`
tolerates an absent `mock-data` directory — the `fs.stat` failure is
swallowed, no file is registered — and returns a `RefinementState` as the
next state. -/
theorem refinement_iteration_mock_sentinel (config : SessionStateConfig)
    (approach tabID : String) (env : InteractEnv) (action : SessionStateAction)
    (m : String) (hm : action.msg = some m)
    (hs : containsSubstring "MOCK CODE" m = true) :
    (refinementIterationInteract config approach tabID env action).result =
      (mockCodeGenInteract config approach [] tabID env.freshUploadId env action).result ∧
    (refinementIterationInteract config approach tabID env action).registered =
      (mockCodeGenInteract config approach [] tabID env.freshUploadId env action).registered ∧
    (∀ e, env.statMockDataDir = .error e →
      (mockCodeGenInteract config approach [] tabID env.freshUploadId env action).registered
          = [] ∧
      (mockCodeGenInteract config approach [] tabID env.freshUploadId env action).result =
        .ok (mkRefinementState config approach tabID, none)) := by
  have hinf : "MOCK CODE".data <:+: m.data := of_decide_eq_true hs
  have hne : m ≠ "" := by
    intro h
    subst h
    exact absurd hinf.length_le (by decide)
  refine ⟨?_, ?_, fun e he => ?_⟩
  · simp [refinementIterationInteract, msgTruthy, hm, hne, hs]
  · simp [refinementIterationInteract, msgTruthy, hm, hne, hs]
  · simp [mockCodeGenInteract, he]

/-- C7 witness. -/
theorem refinement_iteration_mock_sentinel_witness :
    (refinementIterationInteract ⟨"c", "u", "w"⟩ "a" "t" mockAbsentEnv
        ⟨some "please MOCK CODE now"⟩).result =
      (mockCodeGenInteract ⟨"c", "u", "w"⟩ "a" [] "t" mockAbsentEnv.freshUploadId
        mockAbsentEnv ⟨some "please MOCK CODE now"⟩).result ∧
    (refinementIterationInteract ⟨"c", "u", "w"⟩ "a" "t" mockAbsentEnv
        ⟨some "please MOCK CODE now"⟩).registered =
      (mockCodeGenInteract ⟨"c", "u", "w"⟩ "a" [] "t" mockAbsentEnv.freshUploadId
        mockAbsentEnv ⟨some "please MOCK CODE now"⟩).registered ∧
    (∀ e, mockAbsentEnv.statMockDataDir = .error e →
      (mockCodeGenInteract ⟨"c", "u", "w"⟩ "a" [] "t" mockAbsentEnv.freshUploadId
        mockAbsentEnv ⟨some "please MOCK CODE now"⟩).registered = [] ∧
      (mockCodeGenInteract ⟨"c", "u", "w"⟩ "a" [] "t" mockAbsentEnv.freshUploadId
        mockAbsentEnv ⟨some "please MOCK CODE now"⟩).result =
        .ok (mkRefinementState ⟨"c", "u", "w"⟩ "a" "t", none)) :=
  refinement_iteration_mock_sentinel ⟨"c", "u", "w"⟩ "a" "t" mockAbsentEnv
    ⟨some "please MOCK CODE now"⟩ "please MOCK CODE now" rfl (by decide)

/-- C8 counterexample: `RefinementIterationState.interact` makes the remote
plan-generation call with no surrounding try/catch: a non-`ToolkitError`
failure of that call surfaces unwrapped, not chained with the
`'Server side error'` message — refuting that every state wraps such
failures. -/
theorem refinement_iteration_error_not_wrapped :
    (refinementIterationInteract ⟨"c", "u", "w"⟩ "a" "t" planFailEnv
        ⟨some "hi"⟩).result = .error (.external "boom") ∧
    (Exn.external "boom").isToolkitError = false ∧
    Exn.external "boom" ≠ (Exn.external "boom").chain "Server side error" := by
  exact ⟨rfl, rfl, by decide⟩

/-- C8 (amended): only `RefinementState.interact` and `CodeGenState.interact`
run their bodies under the try/catch that wraps non-`ToolkitError` failures
of remote calls with the `'Server side error'` chain (recognized application
errors pass unchanged).  The other states that make remote calls have no
such try/catch and propagate the failure unchanged:
`RefinementIterationState.interact` (plan generation),
`PrepareRefinementState.interact` and `PrepareIterationState.interact` (at
each step of their snapshot / create-upload-URL / upload chain), and
`CodeGenIterationState.interact` (code-generation start and poll). -/
theorem server_side_error_wrapping (config : SessionStateConfig)
    (approach tabID m uploadId : String) (filePaths : List String)
    (env : InteractEnv) (action : SessionStateAction) (e : Exn)
    (hm : action.msg = some m) (hne : m ≠ "")
    (hmock : containsSubstring "MOCK CODE" m = false)
    (hp : env.generatePlan config.conversationId config.uploadId m = .error e) :
    (refinementInteract config approach tabID env action).result =
      .error (wrapServerSide e) ∧
    (refinementIterationInteract config approach tabID env action).result =
      .error e ∧
    (∀ e', env.startCodeGeneration config.conversationId config.uploadId none =
        .error e' →
      (codeGenInteract config approach filePaths tabID env action).result =
        .error (wrapServerSide e')) ∧
    (∀ e', env.prepareRepoData config.workspaceRoot config.conversationId =
        .error e' →
      (prepareRefinementInteract config approach tabID env action).result =
        .error e' ∧
      (prepareIterationInteract config approach filePaths tabID uploadId env
          action).result = .error e') ∧
    (∀ buf checksum e',
      env.prepareRepoData config.workspaceRoot config.conversationId =
        .ok (buf, checksum) →
      env.createUploadUrl config.conversationId checksum = .error e' →
      (prepareRefinementInteract config approach tabID env action).result =
        .error e' ∧
      (prepareIterationInteract config approach filePaths tabID uploadId env
          action).result = .error e') ∧
    (∀ buf checksum url uid kms e',
      env.prepareRepoData config.workspaceRoot config.conversationId =
        .ok (buf, checksum) →
      env.createUploadUrl config.conversationId checksum = .ok (url, uid, kms) →
      env.uploadCode url buf kms = .error e' →
      (prepareRefinementInteract config approach tabID env action).result =
        .error e' ∧
      (prepareIterationInteract config approach filePaths tabID uploadId env
          action).result = .error e') ∧
    (∀ e', env.startCodeGeneration config.conversationId config.uploadId
        action.msg = .error e' →
      (codeGenIterationInteract config approach filePaths tabID env
          action).result = .error e') ∧
    (∀ cgid e',
      env.startCodeGeneration config.conversationId config.uploadId action.msg =
        .ok cgid →
      (generateCode env.codeGen config.uploadId).outcome = .error e' →
      (codeGenIterationInteract config approach filePaths tabID env
          action).result = .error e') ∧
    (∀ e', e'.isToolkitError = false →
      wrapServerSide e' = e'.chain "Server side error") ∧
    (∀ e', e'.isToolkitError = true → wrapServerSide e' = e') := by
  refine ⟨?_, ?_, fun e' he' => ?_, fun e' he' => ⟨?_, ?_⟩,
    fun buf checksum e' h1 h2 => ⟨?_, ?_⟩,
    fun buf checksum url uid kms e' h1 h2 h3 => ⟨?_, ?_⟩,
    fun e' he' => ?_, fun cgid e' h1 h2 => ?_,
    fun e' he' => ?_, fun e' he' => ?_⟩
  · simp [refinementInteract, msgTruthy, hm, hne, hp]
  · simp [refinementIterationInteract, msgTruthy, hm, hne, hmock, hp]
  · simp [codeGenInteract, he']
  · simp [prepareRefinementInteract, he']
  · simp [prepareIterationInteract, he']
  · simp [prepareRefinementInteract, h1, h2]
  · simp [prepareIterationInteract, h1, h2]
  · simp [prepareRefinementInteract, h1, h2, h3]
  · simp [prepareIterationInteract, h1, h2, h3]
  · simp [codeGenIterationInteract, he']
  · simp [codeGenIterationInteract, h1, h2]
  · simp [wrapServerSide, he']
  · simp [wrapServerSide, he']

/-- C8 witness. -/
theorem server_side_error_wrapping_witness :
    (refinementInteract ⟨"c", "u", "w"⟩ "a" "t" planFailEnv ⟨some "hi"⟩).result =
      .error (wrapServerSide (.external "boom")) ∧
    (refinementIterationInteract ⟨"c", "u", "w"⟩ "a" "t" planFailEnv
        ⟨some "hi"⟩).result = .error (.external "boom") ∧
    (∀ e', planFailEnv.startCodeGeneration "c" "u" none = .error e' →
      (codeGenInteract ⟨"c", "u", "w"⟩ "a" [] "t" planFailEnv ⟨some "hi"⟩).result =
        .error (wrapServerSide e')) ∧
    (∀ e', planFailEnv.prepareRepoData "w" "c" = .error e' →
      (prepareRefinementInteract ⟨"c", "u", "w"⟩ "a" "t" planFailEnv
          ⟨some "hi"⟩).result = .error e' ∧
      (prepareIterationInteract ⟨"c", "u", "w"⟩ "a" [] "t" "u2" planFailEnv
          ⟨some "hi"⟩).result = .error e') ∧
    (∀ buf checksum e',
      planFailEnv.prepareRepoData "w" "c" = .ok (buf, checksum) →
      planFailEnv.createUploadUrl "c" checksum = .error e' →
      (prepareRefinementInteract ⟨"c", "u", "w"⟩ "a" "t" planFailEnv
          ⟨some "hi"⟩).result = .error e' ∧
      (prepareIterationInteract ⟨"c", "u", "w"⟩ "a" [] "t" "u2" planFailEnv
          ⟨some "hi"⟩).result = .error e') ∧
    (∀ buf checksum url uid kms e',
      planFailEnv.prepareRepoData "w" "c" = .ok (buf, checksum) →
      planFailEnv.createUploadUrl "c" checksum = .ok (url, uid, kms) →
      planFailEnv.uploadCode url buf kms = .error e' →
      (prepareRefinementInteract ⟨"c", "u", "w"⟩ "a" "t" planFailEnv
          ⟨some "hi"⟩).result = .error e' ∧
      (prepareIterationInteract ⟨"c", "u", "w"⟩ "a" [] "t" "u2" planFailEnv
          ⟨some "hi"⟩).result = .error e') ∧
    (∀ e', planFailEnv.startCodeGeneration "c" "u" (some "hi") = .error e' →
      (codeGenIterationInteract ⟨"c", "u", "w"⟩ "a" [] "t" planFailEnv
          ⟨some "hi"⟩).result = .error e') ∧
    (∀ cgid e',
      planFailEnv.startCodeGeneration "c" "u" (some "hi") = .ok cgid →
      (generateCode planFailEnv.codeGen "u").outcome = .error e' →
      (codeGenIterationInteract ⟨"c", "u", "w"⟩ "a" [] "t" planFailEnv
          ⟨some "hi"⟩).result = .error e') ∧
    (∀ e', e'.isToolkitError = false →
      wrapServerSide e' = e'.chain "Server side error") ∧
    (∀ e', e'.isToolkitError = true → wrapServerSide e' = e') :=
  server_side_error_wrapping ⟨"c", "u", "w"⟩ "a" "t" "hi" "u2" [] planFailEnv
    ⟨some "hi"⟩ (.external "boom") rfl (by decide) (by decide) rfl

/-! ## Helper lemmas about phases and self-mutation -/

theorem phase_eq_phaseOfTag (s : SessionStateV) : s.phase = phaseOfTag s.tag := by
  cases s <;> rfl

theorem interact_updatedSelf_tag (s : SessionStateV) (env : InteractEnv)
    (action : SessionStateAction) :
    (interactOf s env action).updatedSelf.tag = s.tag := by
  cases s
  all_goals
    simp only [interactOf, conversationNotStartedInteract, prepareRefinementInteract,
      refinementInteract, refinementIterationInteract, codeGenInteract,
      mockCodeGenInteract, prepareIterationInteract, codeGenIterationInteract]
    repeat' split
    all_goals rfl

/-- C9 counterexample: `MockCodeGenState` declares no `phase` field at all
(lines 300-311), so the state built by its constructor carries no phase tag —
refuting that every variant carries one of `Init`, `Approach`, `Codegen`. -/
theorem mock_codegen_state_has_no_phase :
    (mkMockCodeGenState ⟨"c", "u", "w"⟩ "a" "t" "fresh-id").phase = none := rfl

/-- C9 (amended): every `SessionState` variant except `MockCodeGenState`
carries a phase tag fixed at construction (`Init`, `Approach` or `Codegen`,
a function of the variant alone), `MockCodeGenState` carries none, and no
`interact` operation changes the acting object's variant or phase:
transitions return fresh successor states rather than mutating one variant
into another's shape. -/
theorem phase_fixed_per_variant (s : SessionStateV) (env : InteractEnv)
    (action : SessionStateAction) :
    s.phase = phaseOfTag s.tag ∧
    (s.tag ≠ .mockCodeGen → s.phase ≠ none) ∧
    (s.tag = .mockCodeGen → s.phase = none) ∧
    (interactOf s env action).updatedSelf.tag = s.tag ∧
    (interactOf s env action).updatedSelf.phase = s.phase := by
  refine ⟨phase_eq_phaseOfTag s, ?_, ?_, interact_updatedSelf_tag s env action, ?_⟩
  · intro h
    rw [phase_eq_phaseOfTag s]
    cases hs : s.tag <;> simp_all [phaseOfTag]
  · intro h
    rw [phase_eq_phaseOfTag s, h]
    rfl
  · rw [phase_eq_phaseOfTag ((interactOf s env action).updatedSelf),
      interact_updatedSelf_tag s env action, ← phase_eq_phaseOfTag s]

/-- C9 witness. -/
theorem phase_fixed_per_variant_witness :
    (SessionStateV.refinement ⟨"c", "u", "w"⟩ "a" "t").phase =
      phaseOfTag (SessionStateV.refinement ⟨"c", "u", "w"⟩ "a" "t").tag ∧
    ((SessionStateV.refinement ⟨"c", "u", "w"⟩ "a" "t").tag ≠ .mockCodeGen →
      (SessionStateV.refinement ⟨"c", "u", "w"⟩ "a" "t").phase ≠ none) ∧
    ((SessionStateV.refinement ⟨"c", "u", "w"⟩ "a" "t").tag = .mockCodeGen →
      (SessionStateV.refinement ⟨"c", "u", "w"⟩ "a" "t").phase = none) ∧
    (interactOf (.refinement ⟨"c", "u", "w"⟩ "a" "t") trivialEnv
        ⟨some "hi"⟩).updatedSelf.tag =
      (SessionStateV.refinement ⟨"c", "u", "w"⟩ "a" "t").tag ∧
    (interactOf (.refinement ⟨"c", "u", "w"⟩ "a" "t") trivialEnv
        ⟨some "hi"⟩).updatedSelf.phase =
      (SessionStateV.refinement ⟨"c", "u", "w"⟩ "a" "t").phase :=
  phase_fixed_per_variant (.refinement ⟨"c", "u", "w"⟩ "a" "t") trivialEnv ⟨some "hi"⟩

/-- C10: `PrepareIterationState.interact` constructs its `CodeGenIterationState`
successor with an empty approach string: the outcome of the call does not
depend on the approach text the `PrepareIterationState` holds, and any
successfully returned next state carries an empty approach. -/
theorem prepare_iteration_discards_approach (config : SessionStateConfig)
    (approach : String) (filePaths : List String) (tabID uploadId : String)
    (env : InteractEnv) (action : SessionStateAction) :
    (prepareIterationInteract config approach filePaths tabID uploadId env action).result =
      (prepareIterationInteract config "" filePaths tabID uploadId env action).result ∧
    (∀ ns content,
      (prepareIterationInteract config approach filePaths tabID uploadId env
          action).result = .ok (ns, content) →
      ns.approachOf = "") := by
  constructor
  · simp only [prepareIterationInteract]
    repeat' split
    all_goals rfl
  · intro ns content h
    simp only [prepareIterationInteract] at h
    rcases h0 : env.prepareRepoData config.workspaceRoot config.conversationId with e | v
    · simp only [h0] at h
      exact absurd h (by simp)
    · obtain ⟨zipFileBuffer, zipFileChecksum⟩ := v
      simp only [h0] at h
      rcases h1 : env.createUploadUrl config.conversationId zipFileChecksum with e | v
      · simp only [h1] at h
        exact absurd h (by simp)
      · obtain ⟨uploadUrl, newUploadId, kmsKeyArn⟩ := v
        simp only [h1] at h
        rcases h2 : env.uploadCode uploadUrl zipFileBuffer kmsKeyArn with e | v
        · simp only [h2] at h
          exact absurd h (by simp)
        · simp only [h2, codeGenIterationInteract] at h
          rcases h3 : env.startCodeGeneration config.conversationId newUploadId
              action.msg with e | codeGenerationId
          · simp only [h3] at h
            exact absurd h (by simp)
          · simp only [h3] at h
            rcases h4 : (generateCode env.codeGen newUploadId).outcome with e | result
            · simp only [h4] at h
              exact absurd h (by simp)
            · simp only [h4] at h
              injection h with h1
              injection h1 with h2 h3
              subst h2
              rfl

/-- C10 witness. -/
theorem prepare_iteration_discards_approach_witness :
    (prepareIterationInteract ⟨"c", "u", "w"⟩ "the approach" [] "t" "u" trivialEnv
        ⟨some "hi"⟩).result =
      (prepareIterationInteract ⟨"c", "u", "w"⟩ "" [] "t" "u" trivialEnv
        ⟨some "hi"⟩).result ∧
    (∀ ns content,
      (prepareIterationInteract ⟨"c", "u", "w"⟩ "the approach" [] "t" "u" trivialEnv
          ⟨some "hi"⟩).result = .ok (ns, content) →
      ns.approachOf = "") :=
  prepare_iteration_discards_approach ⟨"c", "u", "w"⟩ "the approach" [] "t" "u"
    trivialEnv ⟨some "hi"⟩

end Weaverbird
